import Mathlib

/-!
Shallow embedding of the kiro.rs admin layer:
* `src/admin/service.rs` — the AdminService business logic (credential status
  views, disable/priority/reset operations, balance computation, error
  classification), and
* `src/admin_ui/router.rs` — the Admin UI static/SPA asset router
  (path-safety check, asset lookup, cache policy, config injection).

Modelling conventions:
* The external credential-pool facade (`MultiTokenManager`) is not part of
  the given source; each operation receives the observable results of the
  facade calls it makes (the snapshot, the mutation result, the usage fetch
  result) as explicit arguments.
* Rust `f64` values in the balance computation are modelled as rationals.
* Rust strings are modelled as Lean `String`; the substring and affix tests
  (`str::contains`, `str::starts_with`, `str::ends_with`) and
  `str::replace` are defined here on the underlying character lists with
  the same leftmost, non-overlapping match semantics.
* The embedded asset table (`rust_embed` over `admin-ui/dist`, a build-time
  artifact outside the source tree) is a parameter `assets : String → Option
  String`, and the MIME guesser (`mime_guess` crate) a parameter
  `mimeOf : String → String`.
-/

/-- Entry of a credential snapshot, as consumed by `AdminService`. -/
structure CredentialEntry where
  index : Nat
  priority : Nat
  disabled : Bool
  failure_count : Nat
  expires_at : Option Nat
  auth_method : String
  has_profile_arn : Bool
  deriving DecidableEq

/-- Point-in-time snapshot of the credential pool, from the facade. -/
structure CredentialSnapshot where
  total : Nat
  available : Nat
  current_index : Nat
  entries : List CredentialEntry
  deriving DecidableEq

/-- API projection of an entry plus the derived `is_current` flag. -/
structure CredentialStatusItem where
  index : Nat
  priority : Nat
  disabled : Bool
  failure_count : Nat
  is_current : Bool
  expires_at : Option Nat
  auth_method : String
  has_profile_arn : Bool
  deriving DecidableEq

/-- Response of `AdminService::get_all_credentials`. -/
structure CredentialsStatusResponse where
  total : Nat
  available : Nat
  current_index : Nat
  credentials : List CredentialStatusItem
  deriving DecidableEq

/-- Usage data returned by the facade usage fetch (f64 modelled as ℚ). -/
structure UsageLimits where
  subscription_title : Option String
  current_usage : ℚ
  usage_limit : ℚ
  next_date_reset : Option Nat
  deriving DecidableEq

/-- Response of `AdminService::get_balance`. -/
structure BalanceResponse where
  index : Nat
  subscription_title : Option String
  current_usage : ℚ
  usage_limit : ℚ
  remaining : ℚ
  usage_percentage : ℚ
  next_reset_at : Option Nat
  deriving DecidableEq

/-- Caller-facing error taxonomy (`src/admin/error.rs`). -/
inductive AdminServiceError where
  | NotFound (index : Nat) (total : Nat)
  | UpstreamError (message : String)
  | InternalError (message : String)
  deriving DecidableEq

/-- `str::starts_with` on character lists. -/
def listIsPrefixOf : List Char → List Char → Bool
  | [], _ => true
  | _ :: _, [] => false
  | a :: as, b :: bs => a == b && listIsPrefixOf as bs

/-- `str::contains` on character lists: the pattern matches at some position. -/
def listIsInfixOf (pat : List Char) : List Char → Bool
  | [] => listIsPrefixOf pat []
  | c :: rest => listIsPrefixOf pat (c :: rest) || listIsInfixOf pat rest

/-- Rust `msg.contains(pat)`. -/
def strContains (s pat : String) : Bool := listIsInfixOf pat.data s.data

/-- Rust `s.starts_with(p)`. -/
def strStartsWith (s p : String) : Bool := listIsPrefixOf p.data s.data

/-- Rust `s.ends_with(p)`. -/
def strEndsWith (s p : String) : Bool := listIsPrefixOf p.data.reverse s.data.reverse

/-- `AdminService::get_all_credentials` as a function of the snapshot the
facade returns: maps every entry to a status item, `is_current` computed
against the same snapshot's `current_index`, preserving order. -/
def get_all_credentials (snapshot : CredentialSnapshot) : CredentialsStatusResponse :=
  { total := snapshot.total
    available := snapshot.available
    current_index := snapshot.current_index
    credentials := snapshot.entries.map fun entry =>
      { index := entry.index
        priority := entry.priority
        disabled := entry.disabled
        failure_count := entry.failure_count
        is_current := entry.index == snapshot.current_index
        expires_at := entry.expires_at
        auth_method := entry.auth_method
        has_profile_arn := entry.has_profile_arn } }

/-- `AdminService::classify_error` — classifier for the simple operations
(`set_disabled`, `set_priority`, `reset_and_enable`). -/
def classify_error (msg : String) (index total : Nat) : AdminServiceError :=
  if strContains msg "索引超出范围" then
    AdminServiceError.NotFound index total
  else
    AdminServiceError.InternalError msg

/-- `AdminService::classify_balance_error` — classifier for the balance
path, which may cross the network. -/
def classify_balance_error (msg : String) (index total : Nat) : AdminServiceError :=
  if strContains msg "索引超出范围" then
    AdminServiceError.NotFound index total
  else
    let is_upstream_error :=
      strContains msg "凭证已过期或无效" ||
      strContains msg "权限不足" ||
      strContains msg "已被限流" ||
      strContains msg "服务器错误" ||
      strContains msg "Token 刷新失败" ||
      strContains msg "暂时不可用" ||
      strContains msg "error trying to connect" ||
      strContains msg "connection" ||
      strContains msg "timeout" ||
      strContains msg "timed out"
    if is_upstream_error then
      AdminServiceError.UpstreamError msg
    else
      AdminServiceError.InternalError msg

/-- `AdminService::set_disabled`, with the facade results passed in:
`snapshot` is the snapshot read before the mutation, `setResult` the result
of the facade `set_disabled` call, `switchResult` the result the facade
`switch_to_next` call would return.  Produces the operation result and a
flag recording whether `switch_to_next` was invoked; in the source the
switch result is bound to `_` and discarded. -/
def set_disabled (snapshot : CredentialSnapshot) (index : Nat) (disabled : Bool)
    (setResult : Except String Unit) (switchResult : Except String Unit) :
    Except AdminServiceError Unit × Bool :=
  let current_index := snapshot.current_index
  let total := snapshot.total
  match setResult with
  | Except.error e => (Except.error (classify_error e index total), false)
  | Except.ok _ =>
    if disabled && index == current_index then
      let _ := switchResult
      (Except.ok (), true)
    else
      (Except.ok (), false)

/-- `AdminService::set_priority`: pure delegation plus error classification;
`total` comes from a fresh snapshot, `result` from the facade call. -/
def set_priority (total : Nat) (index : Nat) (priority : Nat)
    (result : Except String Unit) : Except AdminServiceError Unit :=
  let _ := priority
  match result with
  | Except.ok _ => Except.ok ()
  | Except.error e => Except.error (classify_error e index total)

/-- `AdminService::reset_and_enable`: pure delegation plus error
classification. -/
def reset_and_enable (total : Nat) (index : Nat)
    (result : Except String Unit) : Except AdminServiceError Unit :=
  match result with
  | Except.ok _ => Except.ok ()
  | Except.error e => Except.error (classify_error e index total)

/-- `AdminService::get_balance`, with the usage-fetch result passed in;
computes `remaining` and `usage_percentage` exactly as the source does. -/
def get_balance (index total : Nat) (usageResult : Except String UsageLimits) :
    Except AdminServiceError BalanceResponse :=
  match usageResult with
  | Except.error e => Except.error (classify_balance_error e index total)
  | Except.ok usage =>
    let current_usage := usage.current_usage
    let usage_limit := usage.usage_limit
    let remaining := max (usage_limit - current_usage) 0
    let usage_percentage :=
      if usage_limit > 0 then min (current_usage / usage_limit * 100) 100 else 0
    Except.ok
      { index := index
        subscription_title := usage.subscription_title
        current_usage := current_usage
        usage_limit := usage_limit
        remaining := remaining
        usage_percentage := usage_percentage
        next_reset_at := usage.next_date_reset }

/-- Leftmost, non-overlapping replacement of every match of `pat` by `rep`,
the semantics of Rust `str::replace` (`pat` is nonempty at every use site,
namely the literal head-close marker). -/
def replaceFrom (pat rep : List Char) : List Char → List Char
  | [] => []
  | c :: rest =>
    if listIsPrefixOf pat (c :: rest) then
      rep ++ replaceFrom pat rep (rest.drop (pat.length - 1))
    else
      c :: replaceFrom pat rep rest
  termination_by l => l.length
  decreasing_by
    · simp only [List.length_cons, List.length_drop]
      omega
    · simp

/-- Rust `s.replace(pat, rep)` on `String`. -/
def replaceString (s pat rep : String) : String :=
  String.mk (replaceFrom pat.data rep.data s.data)

/-- Minimal model of the `axum` responses the router builds: status code,
the two headers the router sets, and the body. -/
structure HttpResponse where
  status : Nat
  content_type : Option String
  cache_control : Option String
  body : String
  deriving DecidableEq

/-- `get_cache_control` from `src/admin_ui/router.rs`. -/
def get_cache_control (path : String) : String :=
  if strEndsWith path ".html" then
    "no-cache"
  else if strStartsWith path "assets/" then
    "public, max-age=31536000, immutable"
  else
    "public, max-age=3600"

/-- Last path segment: everything after the final slash
(`path.rsplit('/').next()`, which is always `Some` for `str`). -/
def last_segment (path : String) : String :=
  String.mk ((path.data.reverse.takeWhile fun c => c ≠ '/').reverse)

/-- `is_asset_path` from `src/admin_ui/router.rs`: the last segment
contains a dot, i.e. the path looks like a file. -/
def is_asset_path (path : String) : Bool :=
  (last_segment path).data.any fun c => c == '.'

/-- The runtime-config script `serve_index` formats; `base_path` is spliced
in verbatim by `format!`. -/
def config_script (base_path : String) : String :=
  "<script>window.__KIRO_CONFIG__=\x7bbasePath:\"" ++ base_path ++ "\"\x7d</script>"

/-- `serve_index` from `src/admin_ui/router.rs`: looks up the embedded
entry document, injects the config script before the head-close marker
(every occurrence, by `str::replace`), or returns the not-built 404. -/
def serve_index (assets : String → Option String) (base_path : String) : HttpResponse :=
  match assets "index.html" with
  | some content =>
    let modified_html :=
      replaceString content "</head>" (config_script base_path ++ "</head>")
    { status := 200
      content_type := some "text/html; charset=utf-8"
      cache_control := some "no-cache"
      body := modified_html }
  | none =>
    { status := 404
      content_type := none
      cache_control := none
      body := "Admin UI not built. Run \x27pnpm build\x27 in admin-ui directory." }

/-- `static_handler` from `src/admin_ui/router.rs`, as a function of the
slash-trimmed request path (`uri.path().trim_start_matches('/')`), the
embedded asset table and the MIME guesser. -/
def static_handler (assets : String → Option String) (mimeOf : String → String)
    (base_path : String) (path : String) : HttpResponse :=
  if strContains path ".." then
    { status := 400, content_type := none, cache_control := none,
      body := "Invalid path" }
  else
    match assets path with
    | some content =>
      { status := 200
        content_type := some (mimeOf path)
        cache_control := some (get_cache_control path)
        body := content }
    | none =>
      if !is_asset_path path then
        serve_index assets base_path
      else
        { status := 404, content_type := none, cache_control := none,
          body := "Not found" }

lemma listIsPrefixOf_refl_append (a t : List Char) : listIsPrefixOf a (a ++ t) = true := by
  induction a with
  | nil => rfl
  | cons c cs ih => simp [listIsPrefixOf, ih]

lemma drop_length_append (a b : List Char) : (a ++ b).drop a.length = b := by
  induction a with
  | nil => rfl
  | cons c cs ih => simp [ih]

lemma replaceFrom_head_match (pat rep t : List Char) (h : pat ≠ []) :
    replaceFrom pat rep (pat ++ t) = rep ++ replaceFrom pat rep t := by
  cases pat with
  | nil => exact absurd rfl h
  | cons p ps =>
    have hpre : listIsPrefixOf (p :: ps) (p :: (ps ++ t)) = true := by
      simpa using listIsPrefixOf_refl_append (p :: ps) t
    show replaceFrom (p :: ps) rep (p :: (ps ++ t)) = _
    rw [replaceFrom]
    simp [hpre, drop_length_append]

lemma replaceFrom_no_match (pat rep : List Char) :
    ∀ s : List Char, listIsInfixOf pat s = false → replaceFrom pat rep s = s := by
  intro s
  induction s with
  | nil =>
    intro h
    rw [replaceFrom]
  | cons c rest ih =>
    intro h
    simp only [listIsInfixOf, Bool.or_eq_false_iff] at h
    rw [replaceFrom]
    simp [h.1, ih h.2]

lemma replaceFrom_skip (pat rep : List Char) :
    ∀ a s : List Char,
      (∀ i, i < a.length → listIsPrefixOf pat ((a ++ s).drop i) = false) →
      replaceFrom pat rep (a ++ s) = a ++ replaceFrom pat rep s := by
  intro a
  induction a with
  | nil =>
    intro s _
    simp
  | cons c cs ih =>
    intro s h
    have h0 : listIsPrefixOf pat (c :: (cs ++ s)) = false := by
      simpa using h 0 (by simp)
    have hrest : ∀ i, i < cs.length → listIsPrefixOf pat ((cs ++ s).drop i) = false := by
      intro i hi
      simpa using h (i + 1) (by simpa using hi)
    rw [show (c :: cs) ++ s = c :: (cs ++ s) from rfl, replaceFrom]
    simp [h0, ih s hrest]

lemma countP_index_le_one (c : Nat) :
    ∀ l : List CredentialEntry, l.Pairwise (fun a b => a.index ≠ b.index) →
      l.countP (fun e => e.index == c) ≤ 1 := by
  intro l
  induction l with
  | nil =>
    intro _
    simp
  | cons a l ih =>
    intro hp
    rw [List.pairwise_cons] at hp
    rw [List.countP_cons]
    by_cases ha : a.index = c
    · have h1 : l.countP (fun e => e.index == c) = 0 := by
        rw [List.countP_eq_zero]
        intro b hb
        simp only [beq_iff_eq]
        exact fun hbc => hp.1 b hb (ha.trans hbc.symm)
      simp [h1, ha]
    · have h2 : (a.index == c) = false := beq_eq_false_iff_ne.mpr ha
      simp only [h2]
      simpa using ih hp.2

/-- C1: on a successful facade mutation, `set_disabled` attempts the
switch-to-next exactly when `disabled = true` and `index` equals the
`current_index` captured from the pre-mutation snapshot, and it reports
success whatever the switch result is (the switch result is discarded),
including when no alternative credential exists; otherwise no switch is
attempted. -/
theorem set_disabled_switch_policy (snapshot : CredentialSnapshot) (index : Nat)
    (disabled : Bool) (switchResult : Except String Unit) :
    (disabled = true → index = snapshot.current_index →
      set_disabled snapshot index disabled (Except.ok ()) switchResult =
        (Except.ok (), true))
    ∧ ((disabled = false ∨ index ≠ snapshot.current_index) →
      set_disabled snapshot index disabled (Except.ok ()) switchResult =
        (Except.ok (), false)) := by
  constructor
  · intro hd hi
    subst hd
    subst hi
    simp [set_disabled]
  · intro h
    rcases h with h | h
    · subst h
      simp [set_disabled]
    · have hb : (index == snapshot.current_index) = false := beq_eq_false_iff_ne.mpr h
      simp [set_disabled, hb]

theorem set_disabled_switch_policy_witness :
    set_disabled ⟨1, 1, 0, [⟨0, 100, false, 0, none, "social", false⟩]⟩ 0 true
        (Except.ok ()) (Except.error "没有可用的凭证") = (Except.ok (), true) :=
  (set_disabled_switch_policy ⟨1, 1, 0, [⟨0, 100, false, 0, none, "social", false⟩]⟩
    0 true (Except.error "没有可用的凭证")).1 rfl rfl

/-- C2: every successful `get_balance` result satisfies
`remaining = max (usage_limit - current_usage) 0`;
`usage_percentage = min (current_usage / usage_limit * 100) 100` when
`usage_limit > 0` and `0` otherwise; and, when `current_usage ≥ 0`,
`0 ≤ usage_percentage ≤ 100`. -/
theorem get_balance_invariants (index total : Nat)
    (usageResult : Except String UsageLimits) (resp : BalanceResponse)
    (hok : get_balance index total usageResult = Except.ok resp)
    (hnn : 0 ≤ resp.current_usage) :
    resp.remaining = max (resp.usage_limit - resp.current_usage) 0
    ∧ (0 < resp.usage_limit →
        resp.usage_percentage = min (resp.current_usage / resp.usage_limit * 100) 100)
    ∧ (resp.usage_limit ≤ 0 → resp.usage_percentage = 0)
    ∧ 0 ≤ resp.usage_percentage ∧ resp.usage_percentage ≤ 100 := by
  cases usageResult with
  | error e =>
    exact absurd hok (by simp [get_balance])
  | ok usage =>
    simp only [get_balance] at hok
    split at hok
    next hpos =>
      simp only [Except.ok.injEq] at hok
      subst hok
      dsimp only at hnn ⊢
      refine ⟨rfl, fun _ => rfl, fun hle => absurd hpos (not_lt.mpr hle), ?_, ?_⟩
      · exact le_min (mul_nonneg (div_nonneg hnn hpos.le) (by norm_num)) (by norm_num)
      · exact min_le_right _ _
    next hneg =>
      simp only [Except.ok.injEq] at hok
      subst hok
      dsimp only at hnn ⊢
      exact ⟨rfl, fun hpos => absurd hpos hneg, fun _ => rfl, le_refl 0, by norm_num⟩

theorem get_balance_invariants_witness :
    (⟨0, none, 75, 100, 25, 75, none⟩ : BalanceResponse).remaining =
        max ((⟨0, none, 75, 100, 25, 75, none⟩ : BalanceResponse).usage_limit -
          (⟨0, none, 75, 100, 25, 75, none⟩ : BalanceResponse).current_usage) 0
    ∧ 0 ≤ (⟨0, none, 75, 100, 25, 75, none⟩ : BalanceResponse).usage_percentage
    ∧ (⟨0, none, 75, 100, 25, 75, none⟩ : BalanceResponse).usage_percentage ≤ 100 := by
  have h := get_balance_invariants 0 3 (Except.ok ⟨none, 75, 100, none⟩)
      ⟨0, none, 75, 100, 25, 75, none⟩ (by norm_num [get_balance]) (by norm_num)
  exact ⟨h.1, h.2.2.2.1, h.2.2.2.2⟩

/-- C3: the balance-path classifier is a (total, deterministic) function
whose value is always exactly one of `NotFound index total`,
`UpstreamError msg`, `InternalError msg`, and any message containing the
out-of-range signal is classified `NotFound` regardless of what else the
message contains. -/
theorem classify_balance_error_trichotomy (msg : String) (index total : Nat) :
    (classify_balance_error msg index total = AdminServiceError.NotFound index total
     ∨ classify_balance_error msg index total = AdminServiceError.UpstreamError msg
     ∨ classify_balance_error msg index total = AdminServiceError.InternalError msg)
    ∧ (strContains msg "索引超出范围" = true →
        classify_balance_error msg index total = AdminServiceError.NotFound index total) := by
  constructor
  · simp only [classify_balance_error]
    split
    · exact Or.inl rfl
    · split
      · exact Or.inr (Or.inl rfl)
      · exact Or.inr (Or.inr rfl)
  · intro h
    simp only [classify_balance_error]
    rw [if_pos h]

theorem classify_balance_error_trichotomy_witness :
    classify_balance_error "获取使用量失败: 索引超出范围: 5 (timeout, connection)" 5 3 =
      AdminServiceError.NotFound 5 3 :=
  (classify_balance_error_trichotomy "获取使用量失败: 索引超出范围: 5 (timeout, connection)"
    5 3).2 (by decide)

/-- C4: for a snapshot with pairwise-distinct entry indices,
`get_all_credentials` returns one item per entry in snapshot order, each
item keeping its entry's index and carrying
`is_current = (entry.index == snapshot.current_index)`; hence exactly one
item has `is_current = true` iff some entry's index equals
`current_index`, and zero items otherwise. -/
theorem get_all_credentials_is_current_spec (s : CredentialSnapshot)
    (hdist : s.entries.Pairwise fun a b => a.index ≠ b.index) :
    (get_all_credentials s).credentials.length = s.entries.length
    ∧ (∀ i (h1 : i < (get_all_credentials s).credentials.length)
        (h2 : i < s.entries.length),
        ((get_all_credentials s).credentials[i]).index = (s.entries[i]).index
        ∧ ((get_all_credentials s).credentials[i]).is_current =
            ((s.entries[i]).index == s.current_index))
    ∧ ((get_all_credentials s).credentials.countP (fun item => item.is_current) = 1
        ↔ ∃ e ∈ s.entries, e.index = s.current_index)
    ∧ ((get_all_credentials s).credentials.countP (fun item => item.is_current) = 0
        ↔ ¬ ∃ e ∈ s.entries, e.index = s.current_index) := by
  have hcnt : (get_all_credentials s).credentials.countP (fun item => item.is_current)
      = s.entries.countP (fun e => e.index == s.current_index) := by
    show (s.entries.map _).countP _ = _
    rw [List.countP_map]
    rfl
  have hle := countP_index_le_one s.current_index s.entries hdist
  refine ⟨by simp [get_all_credentials], ?_, ?_, ?_⟩
  · intro i h1 h2
    constructor
    · simp [get_all_credentials]
    · simp [get_all_credentials]
  · rw [hcnt]
    constructor
    · intro h1
      have hpos : 0 < s.entries.countP (fun e => e.index == s.current_index) := by
        omega
      obtain ⟨e, he, hec⟩ := List.countP_pos_iff.mp hpos
      exact ⟨e, he, by simpa using hec⟩
    · rintro ⟨e, he, hec⟩
      have hb : (fun e => e.index == s.current_index) e = true := by simpa using hec
      have hpos : 0 < s.entries.countP (fun e => e.index == s.current_index) :=
        List.countP_pos_iff.mpr ⟨e, he, hb⟩
      omega
  · rw [hcnt, List.countP_eq_zero]
    constructor
    · rintro h ⟨e, he, hec⟩
      have hne : ¬ e.index = s.current_index := by simpa using h e he
      exact hne hec
    · intro h e he
      simp only [beq_iff_eq]
      exact fun hec => h ⟨e, he, hec⟩

theorem get_all_credentials_is_current_spec_witness :
    (get_all_credentials ⟨3, 3, 1,
        [⟨0, 10, false, 0, none, "social", false⟩,
         ⟨1, 20, false, 0, none, "social", false⟩,
         ⟨2, 30, true, 2, none, "idc", true⟩]⟩).credentials.countP
      (fun item => item.is_current) = 1 :=
  (get_all_credentials_is_current_spec ⟨3, 3, 1,
      [⟨0, 10, false, 0, none, "social", false⟩,
       ⟨1, 20, false, 0, none, "social", false⟩,
       ⟨2, 30, true, 2, none, "idc", true⟩]⟩
    (by decide)).2.2.1.mpr (by decide)

/-- C6: the simple operations (`set_disabled`, `set_priority`,
`reset_and_enable`) classify every facade error through `classify_error`,
which yields `NotFound index total` exactly when the message contains the
out-of-range signal and `InternalError msg` otherwise — never
`UpstreamError`. -/
theorem simple_ops_never_upstream (msg : String) (snapshot : CredentialSnapshot)
    (index total priority : Nat) (disabled : Bool)
    (switchResult : Except String Unit) :
    (set_disabled snapshot index disabled (Except.error msg) switchResult).1 =
        Except.error (classify_error msg index snapshot.total)
    ∧ set_priority total index priority (Except.error msg) =
        Except.error (classify_error msg index total)
    ∧ reset_and_enable total index (Except.error msg) =
        Except.error (classify_error msg index total)
    ∧ (strContains msg "索引超出范围" = true →
        classify_error msg index total = AdminServiceError.NotFound index total)
    ∧ (strContains msg "索引超出范围" = false →
        classify_error msg index total = AdminServiceError.InternalError msg)
    ∧ ∀ m, classify_error msg index total ≠ AdminServiceError.UpstreamError m := by
  refine ⟨rfl, rfl, rfl, ?_, ?_, ?_⟩
  · intro h
    simp [classify_error, h]
  · intro h
    simp [classify_error, h]
  · intro m
    simp only [classify_error]
    split <;> simp

theorem simple_ops_never_upstream_witness :
    classify_error "设置失败: 索引超出范围: 9" 9 3 = AdminServiceError.NotFound 9 3 :=
  (simple_ops_never_upstream "设置失败: 索引超出范围: 9" ⟨3, 3, 0, []⟩ 9 3 0 false
    (Except.ok ())).2.2.2.1 (by decide)

lemma replaceFrom_nil (pat rep : List Char) : replaceFrom pat rep [] = [] := by
  rw [replaceFrom]

lemma data_append (s t : String) : (s ++ t).data = s.data ++ t.data := rfl

lemma string_mk_eq (x : List Char) (s : String) (h : x = s.data) : String.mk x = s := by
  subst h
  rfl

/-- C5: a request path containing `..` is answered with the 400 response,
for every asset table, MIME guesser and base path alike — so no asset
lookup and no SPA fallback can influence the result. -/
theorem static_handler_rejects_traversal (assets : String → Option String)
    (mimeOf : String → String) (base_path path : String)
    (h : strContains path ".." = true) :
    static_handler assets mimeOf base_path path =
      { status := 400, content_type := none, cache_control := none,
        body := "Invalid path" } := by
  simp [static_handler, h]

theorem static_handler_rejects_traversal_witness :
    static_handler (fun p => if p = "../secret" then some "top secret" else none)
        (fun _ => "application/octet-stream") "" "../secret" =
      { status := 400, content_type := none, cache_control := none,
        body := "Invalid path" } :=
  static_handler_rejects_traversal
    (fun p => if p = "../secret" then some "top secret" else none)
    (fun _ => "application/octet-stream") "" "../secret" (by decide)

/-- C7: a path served from the asset table carries the cache directive of
its path class: an `.html` suffix gives "no-cache"; otherwise an
`assets/` prefix gives the one-year immutable directive; any other path
gives the one-hour directive. -/
theorem get_cache_control_policy (assets : String → Option String)
    (mimeOf : String → String) (base_path path content : String)
    (hsafe : strContains path ".." = false) (hhit : assets path = some content) :
    (static_handler assets mimeOf base_path path).cache_control =
        some (get_cache_control path)
    ∧ (strEndsWith path ".html" = true → get_cache_control path = "no-cache")
    ∧ (strEndsWith path ".html" = false → strStartsWith path "assets/" = true →
        get_cache_control path = "public, max-age=31536000, immutable")
    ∧ (strEndsWith path ".html" = false → strStartsWith path "assets/" = false →
        get_cache_control path = "public, max-age=3600") := by
  refine ⟨?_, ?_, ?_, ?_⟩
  · simp [static_handler, hsafe, hhit]
  · intro h1
    simp [get_cache_control, h1]
  · intro h1 h2
    simp [get_cache_control, h1, h2]
  · intro h1 h2
    simp [get_cache_control, h1, h2]

theorem get_cache_control_policy_witness :
    get_cache_control "assets/app.abc123.js" = "public, max-age=31536000, immutable" :=
  (get_cache_control_policy
      (fun p => if p = "assets/app.abc123.js" then some "js" else none)
      (fun _ => "text/javascript") "" "assets/app.abc123.js" "js"
      (by decide) (by decide)).2.2.1 (by decide) (by decide)

/-- C8: on a safe path that matches no asset, `static_handler` serves the
SPA fallback through `serve_index` exactly when the final path segment has
no extension — yielding status 200 and the config-injected entry document
whenever the entry document is embedded — and answers 404 when the final
segment does look like a file. -/
theorem static_handler_spa_fallback (assets : String → Option String)
    (mimeOf : String → String) (base_path path idx : String)
    (hsafe : strContains path ".." = false) (hmiss : assets path = none) :
    (is_asset_path path = false →
      static_handler assets mimeOf base_path path = serve_index assets base_path
      ∧ (assets "index.html" = some idx →
          (static_handler assets mimeOf base_path path).status = 200
          ∧ (static_handler assets mimeOf base_path path).body =
              replaceString idx "</head>" (config_script base_path ++ "</head>")))
    ∧ (is_asset_path path = true →
      static_handler assets mimeOf base_path path =
        { status := 404, content_type := none, cache_control := none,
          body := "Not found" }) := by
  constructor
  · intro hfile
    have heq : static_handler assets mimeOf base_path path =
        serve_index assets base_path := by
      simp [static_handler, hsafe, hmiss, hfile]
    refine ⟨heq, fun hidx => ?_⟩
    rw [heq]
    constructor
    · simp [serve_index, hidx]
    · simp [serve_index, hidx]
  · intro hfile
    simp [static_handler, hsafe, hmiss, hfile]

theorem static_handler_spa_fallback_witness :
    (static_handler
        (fun p => if p = "index.html" then some "<html><head></head></html>" else none)
        (fun _ => "text/html") "/admin" "dashboard/settings").status = 200 := by
  have h := static_handler_spa_fallback
      (fun p => if p = "index.html" then some "<html><head></head></html>" else none)
      (fun _ => "text/html") "/admin" "dashboard/settings" "<html><head></head></html>"
      (by decide) (by decide)
  exact ((h.1 (by decide)).2 (by decide)).1

/-- C9: `serve_index` rewrites every occurrence of the head-close marker,
prefixing each with the config script (shown here for a document with two
occurrences split by marker-free context), and a document containing no
head-close marker is served unchanged with status 200 and no injected
configuration. -/
theorem serve_index_injects_every_occurrence (assets : String → Option String)
    (base_path : String) :
    (∀ html, assets "index.html" = some html →
      strContains html "</head>" = false →
      (serve_index assets base_path).status = 200
      ∧ (serve_index assets base_path).body = html)
    ∧ (∀ a b c : String,
      assets "index.html" = some (a ++ "</head>" ++ b ++ "</head>" ++ c) →
      (∀ i, i < a.data.length → listIsPrefixOf "</head>".data
          ((a.data ++ ("</head>".data ++ (b.data ++ ("</head>".data ++ c.data)))).drop i)
            = false) →
      (∀ i, i < b.data.length → listIsPrefixOf "</head>".data
          ((b.data ++ ("</head>".data ++ c.data)).drop i) = false) →
      listIsInfixOf "</head>".data c.data = false →
      (serve_index assets base_path).body =
        a ++ config_script base_path ++ "</head>" ++ b ++
          config_script base_path ++ "</head>" ++ c) := by
  constructor
  · intro html hidx hno
    constructor
    · simp [serve_index, hidx]
    · have hbody : (serve_index assets base_path).body =
          replaceString html "</head>" (config_script base_path ++ "</head>") := by
        simp [serve_index, hidx]
      rw [hbody, replaceString]
      rw [replaceFrom_no_match _ _ _
        (show listIsInfixOf "</head>".data html.data = false from hno)]
  · intro a b c hidx hA hB hC
    have hdne : "</head>".data ≠ [] := by decide
    have hbody : (serve_index assets base_path).body =
        String.mk (replaceFrom "</head>".data
          (config_script base_path ++ "</head>").data
          (a ++ "</head>" ++ b ++ "</head>" ++ c).data) := by
      simp [serve_index, hidx, replaceString]
    have hdata : (a ++ "</head>" ++ b ++ "</head>" ++ c).data
        = a.data ++ ("</head>".data ++ (b.data ++ ("</head>".data ++ c.data))) := by
      simp [data_append]
    rw [hbody, hdata]
    rw [replaceFrom_skip _ _ _ _ hA]
    rw [replaceFrom_head_match _ _ _ hdne]
    rw [replaceFrom_skip _ _ _ _ hB]
    rw [replaceFrom_head_match _ _ _ hdne]
    rw [replaceFrom_no_match _ _ _ hC]
    apply string_mk_eq
    simp [data_append]

theorem serve_index_injects_every_occurrence_witness :
    (serve_index
        (fun p => if p = "index.html" then some "<head>x</head>y</head>" else none)
        "/ui").body =
      "<head>x" ++ config_script "/ui" ++ "</head>" ++ "y" ++
        config_script "/ui" ++ "</head>" ++ "" :=
  (serve_index_injects_every_occurrence
      (fun p => if p = "index.html" then some "<head>x</head>y</head>" else none)
      "/ui").2 "<head>x" "y" "" (by decide) (by decide) (by decide) (by decide)

/-- C10: the injected script is exactly
`<script>window.__KIRO_CONFIG__={basePath:"<base_path>"}</script>`, with
`base_path` spliced in verbatim and unescaped, whatever characters (double
quotes, a head-close marker, script text) it contains. -/
theorem serve_index_splices_base_path_verbatim (assets : String → Option String)
    (base_path : String) (a : String)
    (hidx : assets "index.html" = some (a ++ "</head>"))
    (hA : ∀ i, i < a.data.length →
        listIsPrefixOf "</head>".data ((a.data ++ "</head>".data).drop i) = false) :
    config_script base_path =
      "<script>window.__KIRO_CONFIG__=\x7bbasePath:\"" ++ base_path ++ "\"\x7d</script>"
    ∧ (serve_index assets base_path).body =
      a ++ "<script>window.__KIRO_CONFIG__=\x7bbasePath:\"" ++ base_path ++
        "\"\x7d</script>" ++ "</head>" := by
  constructor
  · rfl
  · have hdne : "</head>".data ≠ [] := by decide
    have hbody : (serve_index assets base_path).body =
        String.mk (replaceFrom "</head>".data
          (config_script base_path ++ "</head>").data
          (a ++ "</head>").data) := by
      simp [serve_index, hidx, replaceString]
    have hdata : (a ++ "</head>").data
        = a.data ++ ("</head>".data ++ ([] : List Char)) := by
      simp [data_append]
    have hA2 : ∀ i, i < a.data.length → listIsPrefixOf "</head>".data
        ((a.data ++ ("</head>".data ++ ([] : List Char))).drop i) = false := by
      intro i hi
      simpa using hA i hi
    rw [hbody, hdata]
    rw [replaceFrom_skip _ _ _ _ hA2]
    rw [replaceFrom_head_match _ _ _ hdne]
    rw [replaceFrom_nil]
    apply string_mk_eq
    simp [config_script, data_append]

theorem serve_index_splices_base_path_verbatim_witness :
    (serve_index (fun p => if p = "index.html" then some "<head></head>" else none)
        "\"</head><script>evil()</script>").body =
      "<head>" ++ "<script>window.__KIRO_CONFIG__=\x7bbasePath:\"" ++
        "\"</head><script>evil()</script>" ++ "\"\x7d</script>" ++ "</head>" :=
  (serve_index_splices_base_path_verbatim
      (fun p => if p = "index.html" then some "<head></head>" else none)
      "\"</head><script>evil()</script>" "<head>" (by decide) (by decide)).2
